import Mathlib

/-!
A shallow embedding of the conversation orchestrator of the realtime-ai-backend
repository (src/main.py), together with theorems checking the specification's
claims against it.  The model service is represented as an oracle mapping the
message list sent to it to either a response or a raised error; tool execution,
transcript handling and the websocket message loop are translated directly from
the source.
-/

/-- JSON-like values appearing in tool results.  Numeric constants are kept by
their JSON rendering (the source only ever serializes the fixed literals
5 and 1.2). -/
inductive JVal
  | str (s : String)
  | num (lit : String)
  deriving DecidableEq

/-- Escaping of one character inside a JSON string, as json.dumps does for
quotes and backslashes (the only special characters that can occur here). -/
def escapeChar (c : Char) : String :=
  if c = '"' then "\\\"" else if c = '\\' then "\\\\" else String.singleton c

/-- Escaping of a whole string for JSON output, character by character. -/
def jsonEscapeStr (s : String) : String :=
  s.data.foldl (fun a c => a ++ escapeChar c) ""

/-- Python string slicing s[:n]: the first n characters (code points). -/
def strTake (s : String) (n : Nat) : String :=
  String.mk (s.data.take n)

/-- A JSON string literal. -/
def jstr (s : String) : String :=
  "\"" ++ jsonEscapeStr s ++ "\""

/-- Rendering of one JSON value. -/
def jvalRender : JVal → String
  | JVal.str s => jstr s
  | JVal.num lit => lit

/-- Serialization of a string-keyed object matching json.dumps defaults:
keys in insertion order, comma-space between members, colon-space after keys. -/
def jsonDumps (obj : List (String × JVal)) : String :=
  "\x7b" ++ String.intercalate ", " (obj.map fun p => jstr p.1 ++ ": " ++ jvalRender p.2) ++ "\x7d"

/-- Tool input payloads: string-valued objects, as the declared input schemas
of the two tools (user_id : string, session_id : string) prescribe. -/
abbrev ToolInput := List (String × String)

/-- Python dict.get with a default value. -/
def dictGet (d : ToolInput) (k dflt : String) : String :=
  match d.lookup k with
  | some v => v
  | none => dflt

/-- fetch_user_data from src/main.py lines 69-75; user_id[:8] is the first
eight characters of the id. -/
def fetch_user_data (user_id : String) : List (String × JVal) :=
  [("user_id", JVal.str user_id),
   ("name", JVal.str ("User " ++ strTake user_id 8)),
   ("email", JVal.str ("user" ++ strTake user_id 8 ++ "@example.com")),
   ("account_status", JVal.str "active")]

/-- fetch_conversation_analytics from src/main.py lines 77-83. -/
def fetch_conversation_analytics (session_id : String) : List (String × JVal) :=
  [("session_id", JVal.str session_id),
   ("message_count", JVal.num "5"),
   ("avg_response_time", JVal.num "1.2"),
   ("sentiment", JVal.str "positive")]

/-- process_tool_call from src/main.py lines 85-92: dispatch on the tool name,
default a missing required parameter to "unknown", fall through to a
serialized error object for unknown names. -/
def process_tool_call (tool_name : String) (tool_input : ToolInput) : String :=
  if tool_name = "fetch_user_data" then
    jsonDumps (fetch_user_data (dictGet tool_input "user_id" "unknown"))
  else if tool_name = "fetch_conversation_analytics" then
    jsonDumps (fetch_conversation_analytics (dictGet tool_input "session_id" "unknown"))
  else
    jsonDumps [("error", JVal.str "Unknown tool")]

/-- Content blocks of a model response: text blocks (the ones with a text
attribute) and tool_use blocks (type "tool_use", carrying id, name, input). -/
inductive Block
  | text (s : String)
  | toolUse (id name : String) (input : ToolInput)
  deriving DecidableEq

/-- A tool_result entry as built on line 143 of src/main.py. -/
structure ToolResult where
  tool_use_id : String
  content : String
  deriving DecidableEq

/-- Content of a transcript message: plain text, a block list (an assistant
turn carrying a model response's content), or a tool_result list (the
user-role carrier turn). -/
inductive MsgContent
  | text (s : String)
  | blocks (bs : List Block)
  | results (rs : List ToolResult)
  deriving DecidableEq

/-- One role-tagged transcript entry. -/
structure Message where
  role : String
  content : MsgContent
  deriving DecidableEq

/-- A model response: stop_reason plus ordered content blocks. -/
structure ModelResponse where
  stop_reason : String
  content : List Block
  deriving DecidableEq

/-- Frames sent to the client through manager.send_message. -/
inductive Event
  | connection (sid : String)
  | tool_use (tool : String)
  | response (content : String)
  | error (content : String)
  deriving DecidableEq

/-- The model service as seen by the orchestrator: from the message list
passed to claude.messages.create to either a response or a raised error. -/
abbrev Oracle := List Message → Except String ModelResponse

/-- Text collected from a response's blocks (lines 128-130 and 154-156 of
src/main.py): every block with a text attribute contributes, in block order. -/
def collectText (bs : List Block) : String :=
  bs.foldl (fun acc b => match b with | Block.text s => acc ++ s | _ => acc) ""

/-- The tool_use blocks of a block list as (id, name, input) triples —
line 132's comprehension filtering on block.type == "tool_use". -/
def toolCalls (bs : List Block) : List (String × String × ToolInput) :=
  bs.filterMap fun b =>
    match b with
    | Block.toolUse i n inp => some (i, n, inp)
    | _ => none

/-- One tool_use progress event per tool call (lines 134-140). -/
def toolEvents (resp : ModelResponse) : List Event :=
  (toolCalls resp.content).map fun tc => Event.tool_use tc.2.1

/-- The tool_results list of line 143: one result per request, in request
order, keyed by the request's invocation id. -/
def toolResultsOf (resp : ModelResponse) : List ToolResult :=
  (toolCalls resp.content).map fun tc => ToolResult.mk tc.1 (process_tool_call tc.2.1 tc.2.2)

/-- Lines 142-144 of src/main.py: messages_with_response is rebuilt from the
original messages argument on every loop iteration (not from the previous
round's extended list), plus the assistant turn carrying the response content
and one user-role carrier turn holding all tool results. -/
def roundMessages (messages : List Message) (resp : ModelResponse) : List Message :=
  messages ++ [Message.mk "assistant" (MsgContent.blocks resp.content),
               Message.mk "user" (MsgContent.results (toolResultsOf resp))]

/-- Outcome of one run of stream_llm_response: finished with the returned
text, failed with a raised error message, or out of fuel while the source's
unbounded while-loop would still be iterating. -/
inductive RunResult
  | finished (text : String)
  | failed (e : String)
  | outOfFuel
  deriving DecidableEq

/-- Observable trace of one run: outcome, events sent to the client, the
message list of every model call issued, and every model response received,
in order. -/
structure RunOut where
  result : RunResult
  events : List Event
  calls : List (List Message)
  resps : List ModelResponse
  deriving DecidableEq

/-- The while-loop of stream_llm_response (lines 127-158), with fuel bounding
the number of tool rounds: the source imposes no bound, so outOfFuel marks a
run that is still looping after that many rounds. -/
def streamAux (oracle : Oracle) (messages : List Message) :
    Nat → ModelResponse → String → List Event → List (List Message) →
    List ModelResponse → RunOut
  | 0, resp, acc, evs, calls, resps =>
    if resp.stop_reason = "tool_use" then
      RunOut.mk RunResult.outOfFuel evs calls resps
    else
      RunOut.mk (RunResult.finished (acc ++ collectText resp.content)) evs calls (resps ++ [resp])
  | Nat.succ n, resp, acc, evs, calls, resps =>
    if resp.stop_reason = "tool_use" then
      match oracle (roundMessages messages resp) with
      | Except.error e =>
        RunOut.mk (RunResult.failed e) (evs ++ toolEvents resp)
          (calls ++ [roundMessages messages resp]) (resps ++ [resp])
      | Except.ok r =>
        streamAux oracle messages n r (acc ++ collectText resp.content)
          (evs ++ toolEvents resp) (calls ++ [roundMessages messages resp]) (resps ++ [resp])
    else
      RunOut.mk (RunResult.finished (acc ++ collectText resp.content)) evs calls (resps ++ [resp])

/-- stream_llm_response (lines 94-158) run against a model-service oracle. -/
def streamRun (oracle : Oracle) (messages : List Message) (fuel : Nat) : RunOut :=
  match oracle messages with
  | Except.error e => RunOut.mk (RunResult.failed e) [] [messages] []
  | Except.ok r => streamAux oracle messages fuel r "" [] [messages] []

/-- Per-session mutable state installed by SessionManager.connect. -/
structure SessionState where
  messages : List Message
  user_id : String
  start_time : String
  deriving DecidableEq

/-- The two process-wide maps of SessionManager (lines 37-64), modelled as
finite maps from session id. -/
structure SessionManager where
  active_connections : String → Bool
  session_states : String → Option SessionState

/-- The manager before any connection. -/
def emptyManager : SessionManager :=
  SessionManager.mk (fun _ => false) (fun _ => none)

/-- SessionManager.connect (lines 42-49): registers the connection and
installs a fresh state with an empty transcript at the session id, silently
overwriting whatever was stored there before. -/
def connect (m : SessionManager) (sid uid start_time : String) : SessionManager :=
  SessionManager.mk
    (fun x => if x = sid then true else m.active_connections x)
    (fun x => if x = sid then some (SessionState.mk [] uid start_time) else m.session_states x)

/-- SessionManager.disconnect (lines 51-53): drops the connection only; the
session_states entry is kept. -/
def disconnect (m : SessionManager) (sid : String) : SessionManager :=
  SessionManager.mk (fun x => if x = sid then false else m.active_connections x) m.session_states

/-- get_session_state(sid).get("messages", []): the stored transcript, and []
for an unknown session id (get_session_state returns an empty dict then). -/
def sessionMessages (m : SessionManager) (sid : String) : List Message :=
  match m.session_states sid with
  | some st => st.messages
  | none => []

/-- SessionManager.update_session_state (lines 62-64) restricted to the
"messages" key it is used with: a silent no-op when the session id is not in
the store. -/
def update_session_state (m : SessionManager) (sid : String) (msgs : List Message) :
    SessionManager :=
  match m.session_states sid with
  | none => m
  | some st =>
    SessionManager.mk m.active_connections
      (fun x => if x = sid then some (SessionState.mk msgs st.user_id st.start_time)
                else m.session_states x)

/-- send_message (lines 55-57) delivers only to a connected session. -/
def emitted (m : SessionManager) (sid : String) (evs : List Event) : List Event :=
  if m.active_connections sid then evs else []

/-- One iteration of the websocket receive loop (lines 186-204): append the
user turn (an in-place list mutation, so it reaches the store even when the
run later fails), run stream_llm_response, then either append the assistant
text turn and send a response event, or send a single error event. -/
def handle_message (m : SessionManager) (sid user_message : String)
    (oracle : Oracle) (fuel : Nat) : SessionManager × List Event :=
  let msgs1 := sessionMessages m sid ++ [Message.mk "user" (MsgContent.text user_message)]
  let m1 := update_session_state m sid msgs1
  let run := streamRun oracle msgs1 fuel
  match run.result with
  | RunResult.finished t =>
    (update_session_state m1 sid (msgs1 ++ [Message.mk "assistant" (MsgContent.text t)]),
      emitted m sid (run.events ++ [Event.response t]))
  | RunResult.failed e => (m1, emitted m sid (run.events ++ [Event.error e]))
  | RunResult.outOfFuel => (m1, emitted m sid run.events)

/-- The operations that touch the session store over a session's lifetime. -/
inductive Op
  | connect (sid uid start_time : String)
  | disconnect (sid : String)
  | message (sid user_message : String) (oracle : Oracle) (fuel : Nat)

/-- Effect of one operation on the session store. -/
def applyOp (m : SessionManager) : Op → SessionManager
  | Op.connect sid uid t => connect m sid uid t
  | Op.disconnect sid => disconnect m sid
  | Op.message sid msg oracle fuel => (handle_message m sid msg oracle fuel).1

/-- A plain user turn. -/
def mkUserMsg (s : String) : Message := Message.mk "user" (MsgContent.text s)

/-- True when some carrier turn in the list answers the given invocation id —
used by the scripted oracles below to tell the rounds of a run apart. -/
def hasResult (msgs : List Message) (id : String) : Bool :=
  msgs.any fun msg =>
    match msg.content with
    | MsgContent.results rs => rs.any fun r => r.tool_use_id == id
    | _ => false

/-- Concatenation of the text fragments of a list of responses, in response
order then block order. -/
def concatTexts (rs : List ModelResponse) : String :=
  rs.foldr (fun r s => collectText r.content ++ s) ""

/-- First response of the scripted two-tool-round model service: text T1 and
a request for fetch_user_data under invocation id id1. -/
def respRoundOne : ModelResponse :=
  ModelResponse.mk "tool_use"
    [Block.text "T1", Block.toolUse "id1" "fetch_user_data" [("user_id", "abc123")]]

/-- Second response of the scripted service: a request under id id2. -/
def respRoundTwo : ModelResponse :=
  ModelResponse.mk "tool_use"
    [Block.toolUse "id2" "fetch_conversation_analytics" [("session_id", "s1")]]

/-- Final response of the scripted service. -/
def respFinal : ModelResponse := ModelResponse.mk "end_turn" [Block.text "T2"]

/-- Scripted model service with two needs-tool rounds then a final answer; it
tells the rounds apart by which tool results the incoming messages carry. -/
def twoRoundOracle : Oracle := fun msgs =>
  if hasResult msgs "id2" then Except.ok respFinal
  else if hasResult msgs "id1" then Except.ok respRoundTwo
  else Except.ok respRoundOne

/-- The needs-tool response of the adversarial model service. -/
def alwaysToolResp : ModelResponse :=
  ModelResponse.mk "tool_use" [Block.toolUse "t1" "fetch_user_data" [("user_id", "u")]]

/-- A model service that answers needs-tool on every call. -/
def alwaysToolOracle : Oracle := fun _ => Except.ok alwaysToolResp

/-- Stub for the round-trip property: text fragment T1 together with a tool
request, then a final response carrying fragment T2. -/
def stubTOneTwo : Oracle := fun msgs =>
  if hasResult msgs "w3" then Except.ok (ModelResponse.mk "end_turn" [Block.text "T2"])
  else
    Except.ok (ModelResponse.mk "tool_use"
      [Block.text "T1", Block.toolUse "w3" "fetch_user_data" [("user_id", "u")]])

/-- The single-tool-round scenario of the spec: one fetch_user_data request,
then a final text answer. -/
def scenarioOracle : Oracle := fun msgs =>
  if hasResult msgs "toolu_1" then
    Except.ok (ModelResponse.mk "end_turn" [Block.text "Your account is active."])
  else
    Except.ok (ModelResponse.mk "tool_use"
      [Block.toolUse "toolu_1" "fetch_user_data" [("user_id", "abc123")]])

/-- The scenario model service whose second round-trip raises. -/
def failSecondOracle : Oracle := fun msgs =>
  if hasResult msgs "toolu_1" then Except.error "boom"
  else
    Except.ok (ModelResponse.mk "tool_use"
      [Block.toolUse "toolu_1" "fetch_user_data" [("user_id", "abc123")]])

/-- A freshly connected manager holding one session s. -/
def scenarioStart : SessionManager := connect emptyManager "s" "u0" "t0"

/-- The single-tool-round scenario run end to end. -/
def scenarioOut : SessionManager × List Event :=
  handle_message scenarioStart "s" "What is my account status?" scenarioOracle 5

/-- A store holding session s with a one-turn transcript. -/
def mgrOneTurn : SessionManager :=
  update_session_state (connect emptyManager "s" "u0" "t0") "s" [mkUserMsg "hi"]

/-- Empty string is a left identity of append. -/
theorem str_empty_append (s : String) : "" ++ s = s := rfl

/-- The update of an unknown session id is the identity on the store with no
error reported, matching the guard on lines 63-64 of src/main.py. -/
theorem update_session_state_unknown (m : SessionManager) (sid : String)
    (msgs : List Message) (h : m.session_states sid = none) :
    update_session_state m sid msgs = m := by
  unfold update_session_state
  rw [h]

/-- Updating one session id leaves every other session's transcript alone. -/
theorem sessionMessages_update_other (m : SessionManager) (sid x : String)
    (msgs : List Message) (hx : x ≠ sid) :
    sessionMessages (update_session_state m sid msgs) x = sessionMessages m x := by
  unfold update_session_state
  cases m.session_states sid with
  | none => rfl
  | some st => simp [sessionMessages, hx]

/-- Updating an open session id stores exactly the given transcript. -/
theorem sessionMessages_update_self (m : SessionManager) (sid : String)
    (st : SessionState) (msgs : List Message) (h : m.session_states sid = some st) :
    sessionMessages (update_session_state m sid msgs) sid = msgs := by
  unfold update_session_state
  rw [h]
  simp [sessionMessages]

/-- The stored state after updating an open session id. -/
theorem session_states_update_self (m : SessionManager) (sid : String)
    (st : SessionState) (msgs : List Message) (h : m.session_states sid = some st) :
    (update_session_state m sid msgs).session_states sid
      = some (SessionState.mk msgs st.user_id st.start_time) := by
  unfold update_session_state
  rw [h]
  simp

/-- Updating a transcript does not touch the connection map. -/
theorem update_session_state_active (m : SessionManager) (sid : String)
    (msgs : List Message) :
    (update_session_state m sid msgs).active_connections = m.active_connections := by
  unfold update_session_state
  cases m.session_states sid <;> rfl

/-- C4: process_tool_call is total and, for every name that is not one of the
two registered tools, returns the serialized error object, which the loop then
carries as the ToolResult of the request (totality is by construction: the
embedding is a plain function covering all branches of lines 85-92). -/
theorem c4_unknown_tool_error_payload (name : String) (input : ToolInput) (id : String)
    (h1 : name ≠ "fetch_user_data") (h2 : name ≠ "fetch_conversation_analytics") :
    process_tool_call name input = jsonDumps [("error", JVal.str "Unknown tool")]
    ∧ process_tool_call name input = "\x7b\"error\": \"Unknown tool\"\x7d"
    ∧ toolResultsOf (ModelResponse.mk "tool_use" [Block.toolUse id name input])
        = [ToolResult.mk id (jsonDumps [("error", JVal.str "Unknown tool")])] := by
  have hp : process_tool_call name input = jsonDumps [("error", JVal.str "Unknown tool")] := by
    simp [process_tool_call, h1, h2]
  refine ⟨hp, ?_, ?_⟩
  · rw [hp]
    rfl
  · simp [toolResultsOf, toolCalls, hp]

/-- C4 witness: a concrete unregistered tool name yields the error payload. -/
theorem c4_unknown_tool_error_payload_witness :
    process_tool_call "frobnicate" [] = "\x7b\"error\": \"Unknown tool\"\x7d" :=
  (c4_unknown_tool_error_payload "frobnicate" [] "w9" (by decide) (by decide)).2.1

/-- C10: calling a registered tool with a payload lacking its required
parameter does not fail: the parameter defaults to the string unknown and the
result is the serialized record for that default. -/
theorem c10_missing_param_defaults (input : ToolInput)
    (h1 : input.lookup "user_id" = none) (h2 : input.lookup "session_id" = none) :
    process_tool_call "fetch_user_data" input = jsonDumps (fetch_user_data "unknown")
    ∧ process_tool_call "fetch_user_data" input
        = "\x7b\"user_id\": \"unknown\", \"name\": \"User unknown\", \"email\": \"userunknown@example.com\", \"account_status\": \"active\"\x7d"
    ∧ process_tool_call "fetch_conversation_analytics" input
        = jsonDumps (fetch_conversation_analytics "unknown") := by
  have hg1 : dictGet input "user_id" "unknown" = "unknown" := by simp [dictGet, h1]
  have hg2 : dictGet input "session_id" "unknown" = "unknown" := by simp [dictGet, h2]
  have ha : process_tool_call "fetch_user_data" input
      = jsonDumps (fetch_user_data "unknown") := by
    simp [process_tool_call, hg1]
  refine ⟨ha, ?_, ?_⟩
  · rw [ha]
    rfl
  · simp [process_tool_call, hg2]

/-- C10 witness: the empty payload at both registered tools. -/
theorem c10_missing_param_defaults_witness :
    process_tool_call "fetch_user_data" []
      = "\x7b\"user_id\": \"unknown\", \"name\": \"User unknown\", \"email\": \"userunknown@example.com\", \"account_status\": \"active\"\x7d" :=
  (c10_missing_param_defaults [] rfl rfl).2.1

/-- C9 counterexample: appending a turn for an id absent from the store is a
silent no-op at a concrete input — the operation returns the store unchanged
and reports no error, while the claim demands an UnknownSession failure. -/
theorem c9_unknown_session_counterexample :
    update_session_state emptyManager "s" [mkUserMsg "hi"] = emptyManager
    ∧ sessionMessages (update_session_state emptyManager "s" [mkUserMsg "hi"]) "s" = [] :=
  ⟨rfl, rfl⟩

/-- C9 amended: updating the state of a session id that is not in the store
silently does nothing: the manager is returned unchanged and no error of any
kind is reported (the source has no UnknownSession error at all). -/
theorem c9_unknown_session_silent_noop (m : SessionManager) (sid : String)
    (msgs : List Message) (h : m.session_states sid = none) :
    update_session_state m sid msgs = m :=
  update_session_state_unknown m sid msgs h

/-- C9 witness: the empty store at the concrete id s. -/
theorem c9_unknown_session_silent_noop_witness :
    update_session_state emptyManager "sx" [mkUserMsg "hello"] = emptyManager :=
  c9_unknown_session_silent_noop emptyManager "sx" [mkUserMsg "hello"] rfl

/-- C1: the claim that every model call receives the full accumulated
transcript fails on the source: line 142 rebuilds messages_with_response from
the original messages on every iteration, so in a run with two needs-tool
rounds the third model call carries only round 2's assistant and carrier
turns — round 1's two turns are dropped, though the run still completes. -/
theorem c1_third_call_drops_round_one_turns :
    (streamRun twoRoundOracle [mkUserMsg "hi"] 5).result = RunResult.finished "T1T2"
    ∧ (streamRun twoRoundOracle [mkUserMsg "hi"] 5).calls.length = 3
    ∧ (streamRun twoRoundOracle [mkUserMsg "hi"] 5).calls.getD 2 []
        = [mkUserMsg "hi",
           Message.mk "assistant" (MsgContent.blocks respRoundTwo.content),
           Message.mk "user" (MsgContent.results (toolResultsOf respRoundTwo))]
    ∧ Message.mk "assistant" (MsgContent.blocks respRoundOne.content)
        ∉ (streamRun twoRoundOracle [mkUserMsg "hi"] 5).calls.getD 2 []
    ∧ Message.mk "user" (MsgContent.results (toolResultsOf respRoundOne))
        ∉ (streamRun twoRoundOracle [mkUserMsg "hi"] 5).calls.getD 2 [] := by
  decide

/-- C2: for a needs-tool response carrying N invocation requests, exactly N
tool results are built, keyed by the matching invocation ids in request
order, and the very next model call receives the original messages extended
by exactly two turns: the assistant turn with the requests, then one
user-role carrier with all the results. -/
theorem c2_tool_round_two_turn_shape (messages : List Message) (resp : ModelResponse)
    (oracle : Oracle) (fuel : Nat) (acc : String) (evs : List Event)
    (calls : List (List Message)) (resps : List ModelResponse)
    (h : resp.stop_reason = "tool_use") :
    (toolResultsOf resp).length = (toolCalls resp.content).length
    ∧ (toolResultsOf resp).map ToolResult.tool_use_id
        = (toolCalls resp.content).map Prod.fst
    ∧ roundMessages messages resp
        = messages ++ [Message.mk "assistant" (MsgContent.blocks resp.content),
                       Message.mk "user" (MsgContent.results (toolResultsOf resp))]
    ∧ streamAux oracle messages (fuel + 1) resp acc evs calls resps
        = (match oracle (roundMessages messages resp) with
           | Except.error e =>
             RunOut.mk (RunResult.failed e) (evs ++ toolEvents resp)
               (calls ++ [roundMessages messages resp]) (resps ++ [resp])
           | Except.ok r =>
             streamAux oracle messages fuel r (acc ++ collectText resp.content)
               (evs ++ toolEvents resp) (calls ++ [roundMessages messages resp])
               (resps ++ [resp])) := by
  refine ⟨?_, ?_, rfl, ?_⟩
  · simp [toolResultsOf]
  · simp [toolResultsOf, List.map_map]
  · simp [streamAux, h]

/-- C2 witness: one concrete request under id w1 yields one matching result
before the next call. -/
theorem c2_tool_round_two_turn_shape_witness :
    (toolResultsOf (ModelResponse.mk "tool_use"
        [Block.toolUse "w1" "fetch_user_data" [("user_id", "u")]])).map ToolResult.tool_use_id
      = ["w1"] := by
  have h := c2_tool_round_two_turn_shape []
    (ModelResponse.mk "tool_use" [Block.toolUse "w1" "fetch_user_data" [("user_id", "u")]])
    (fun _ => Except.ok (ModelResponse.mk "end_turn" [])) 0 "" [] [] [] rfl
  rw [h.2.1]
  decide

/-- Inner invariant of the tool loop: whenever the loop finishes, the
returned text is the accumulator already collected plus the concatenated text
fragments of the responses consumed from this point on. -/
theorem streamAux_finished_text (oracle : Oracle) (messages : List Message) :
    ∀ (fuel : Nat) (resp : ModelResponse) (acc : String) (evs : List Event)
      (calls : List (List Message)) (resps : List ModelResponse) (t : String),
      (streamAux oracle messages fuel resp acc evs calls resps).result = RunResult.finished t →
      ∃ l, (streamAux oracle messages fuel resp acc evs calls resps).resps = resps ++ l
        ∧ t = acc ++ concatTexts l := by
  intro fuel
  induction fuel with
  | zero =>
    intro resp acc evs calls resps t h
    by_cases hs : resp.stop_reason = "tool_use"
    · simp [streamAux, hs] at h
    · refine ⟨[resp], by simp [streamAux, hs], ?_⟩
      simp [streamAux, hs] at h
      rw [← h]
      simp [concatTexts, String.append_empty]
  | succ n ih =>
    intro resp acc evs calls resps t h
    by_cases hs : resp.stop_reason = "tool_use"
    · cases ho : oracle (roundMessages messages resp) with
      | error e => simp [streamAux, hs, ho] at h
      | ok r =>
        simp only [streamAux, hs, if_true, ho] at h ⊢
        obtain ⟨l, h1, h2⟩ := ih r (acc ++ collectText resp.content)
          (evs ++ toolEvents resp) (calls ++ [roundMessages messages resp]) (resps ++ [resp]) t h
        refine ⟨resp :: l, ?_, ?_⟩
        · rw [h1]
          simp
        · rw [h2]
          show acc ++ collectText resp.content ++ concatTexts l
            = acc ++ (collectText resp.content ++ concatTexts l)
          rw [String.append_assoc]
    · refine ⟨[resp], by simp [streamAux, hs], ?_⟩
      simp [streamAux, hs] at h
      rw [← h]
      simp [concatTexts, String.append_empty]

/-- C3: for every completed run the returned text equals the concatenation,
in response order and then content-block order, of every text fragment of
every model response observed during the run, intermediate needs-tool
responses included. -/
theorem c3_returned_text_is_concatenation (oracle : Oracle) (messages : List Message)
    (fuel : Nat) (t : String)
    (h : (streamRun oracle messages fuel).result = RunResult.finished t) :
    t = concatTexts (streamRun oracle messages fuel).resps := by
  cases ho : oracle messages with
  | error e =>
    rw [streamRun, ho] at h
    simp at h
  | ok r =>
    rw [streamRun, ho] at h ⊢
    obtain ⟨l, h1, h2⟩ := streamAux_finished_text oracle messages fuel r "" [] [messages] [] t h
    rw [h1, h2]
    simp [str_empty_append]

/-- C3 witness: the stub that emits fragment T1 with a tool request and then
a final response with fragment T2 returns exactly the concatenation. -/
theorem c3_returned_text_is_concatenation_witness :
    "T1T2" = concatTexts (streamRun stubTOneTwo [mkUserMsg "hi"] 3).resps :=
  c3_returned_text_is_concatenation stubTOneTwo [mkUserMsg "hi"] 3 "T1T2" (by decide)

/-- Against the oracle that requests a tool on every call, the loop body
never leaves the looping state, whatever the fuel. -/
theorem streamAux_alwaysTool (messages : List Message) :
    ∀ (fuel : Nat) (resp : ModelResponse) (acc : String) (evs : List Event)
      (calls : List (List Message)) (resps : List ModelResponse),
      resp.stop_reason = "tool_use" →
      (streamAux alwaysToolOracle messages fuel resp acc evs calls resps).result
        = RunResult.outOfFuel := by
  intro fuel
  induction fuel with
  | zero => intro resp acc evs calls resps hs; simp [streamAux, hs]
  | succ n ih =>
    intro resp acc evs calls resps hs
    simp only [streamAux, hs, if_true, alwaysToolOracle]
    exact ih alwaysToolResp _ _ _ _ rfl

/-- The whole run against the always-needs-tool service is still looping
after every number of rounds. -/
theorem streamRun_alwaysTool (messages : List Message) (fuel : Nat) :
    (streamRun alwaysToolOracle messages fuel).result = RunResult.outOfFuel := by
  rw [streamRun]
  exact streamAux_alwaysTool messages fuel alwaysToolResp "" [] [messages] [] rfl

/-- C5 counterexample: no round-trip cap exists in the source — for the model
service that answers needs-tool on every call, there is no number of
round-trips after which the run has terminated (with a result or with any
failure such as LoopLimitExceeded, which the source never raises). -/
theorem c5_no_cap_counterexample :
    ¬ ∃ cap : Nat,
        (streamRun alwaysToolOracle [mkUserMsg "hi"] cap).result ≠ RunResult.outOfFuel :=
  fun hc => hc.choose_spec (streamRun_alwaysTool [mkUserMsg "hi"] hc.choose)

/-- C5 amended: the orchestrator imposes no maximum number of model
round-trips: against a model service that answers needs-tool on every call
the tool loop never terminates — after every number of rounds it is still
looping, and no LoopLimitExceeded failure ever occurs. -/
theorem c5_no_loop_bound (messages : List Message) (fuel : Nat) :
    (streamRun alwaysToolOracle messages fuel).result = RunResult.outOfFuel :=
  streamRun_alwaysTool messages fuel

/-- Stored state of one websocket iteration when the run finishes: the user
turn and then the assistant text turn are appended through the store. -/
theorem handle_message_state_finished (m : SessionManager) (sid msg : String)
    (oracle : Oracle) (fuel : Nat) (t : String)
    (hr : (streamRun oracle
      (sessionMessages m sid ++ [Message.mk "user" (MsgContent.text msg)]) fuel).result
      = RunResult.finished t) :
    (handle_message m sid msg oracle fuel).1
      = update_session_state
          (update_session_state m sid
            (sessionMessages m sid ++ [Message.mk "user" (MsgContent.text msg)]))
          sid
          ((sessionMessages m sid ++ [Message.mk "user" (MsgContent.text msg)])
            ++ [Message.mk "assistant" (MsgContent.text t)]) := by
  simp only [handle_message, hr]

/-- Stored state of one websocket iteration when the run raises: only the
user turn reaches the store. -/
theorem handle_message_state_failed (m : SessionManager) (sid msg : String)
    (oracle : Oracle) (fuel : Nat) (e : String)
    (hr : (streamRun oracle
      (sessionMessages m sid ++ [Message.mk "user" (MsgContent.text msg)]) fuel).result
      = RunResult.failed e) :
    (handle_message m sid msg oracle fuel).1
      = update_session_state m sid
          (sessionMessages m sid ++ [Message.mk "user" (MsgContent.text msg)]) := by
  simp only [handle_message, hr]

/-- Stored state of one websocket iteration while the run is still looping:
only the user turn reaches the store. -/
theorem handle_message_state_looping (m : SessionManager) (sid msg : String)
    (oracle : Oracle) (fuel : Nat)
    (hr : (streamRun oracle
      (sessionMessages m sid ++ [Message.mk "user" (MsgContent.text msg)]) fuel).result
      = RunResult.outOfFuel) :
    (handle_message m sid msg oracle fuel).1
      = update_session_state m sid
          (sessionMessages m sid ++ [Message.mk "user" (MsgContent.text msg)]) := by
  simp only [handle_message, hr]

/-- C6: when the model call raises on the first round-trip, the client gets
exactly one error event, the stored transcript gains only the user turn, the
session stays open and connected, and a following user message is processed
normally (here: against a service that immediately answers with final text). -/
theorem c6_first_call_failure (m : SessionManager) (sid : String) (st : SessionState)
    (msg e : String) (oracle : Oracle) (fuel : Nat)
    (hconn : m.active_connections sid = true)
    (hopen : m.session_states sid = some st)
    (hfail : oracle (st.messages ++ [Message.mk "user" (MsgContent.text msg)])
      = Except.error e) :
    (handle_message m sid msg oracle fuel).2 = [Event.error e]
    ∧ sessionMessages (handle_message m sid msg oracle fuel).1 sid
        = st.messages ++ [Message.mk "user" (MsgContent.text msg)]
    ∧ ((handle_message m sid msg oracle fuel).1.session_states sid).isSome = true
    ∧ (handle_message m sid msg oracle fuel).1.active_connections sid = true
    ∧ ∀ (t2 msg2 : String) (fuel2 : Nat),
        (handle_message (handle_message m sid msg oracle fuel).1 sid msg2
          (fun _ => Except.ok (ModelResponse.mk "end_turn" [Block.text t2])) fuel2).2
          = [Event.response t2] := by
  have hm : sessionMessages m sid = st.messages := by simp [sessionMessages, hopen]
  have hrun : streamRun oracle
      (sessionMessages m sid ++ [Message.mk "user" (MsgContent.text msg)]) fuel
      = RunOut.mk (RunResult.failed e) []
          [sessionMessages m sid ++ [Message.mk "user" (MsgContent.text msg)]] [] := by
    rw [hm]
    unfold streamRun
    rw [hfail]
  have hh : handle_message m sid msg oracle fuel
      = (update_session_state m sid
          (sessionMessages m sid ++ [Message.mk "user" (MsgContent.text msg)]),
         [Event.error e]) := by
    simp only [handle_message, hrun]
    simp [emitted, hconn]
  rw [hh]
  rw [hm]
  refine ⟨rfl, sessionMessages_update_self m sid st _ hopen, ?_, ?_, ?_⟩
  · rw [session_states_update_self m sid st _ hopen]
    rfl
  · rw [update_session_state_active]
    exact hconn
  · intro t2 msg2 fuel2
    cases fuel2 with
    | zero =>
      simp [handle_message, streamRun, streamAux, collectText, emitted,
        update_session_state_active, hconn, str_empty_append]
    | succ k =>
      simp [handle_message, streamRun, streamAux, collectText, emitted,
        update_session_state_active, hconn, str_empty_append]

/-- C6 witness: a concrete freshly connected session and a service raising
the message boom on its first call. -/
theorem c6_first_call_failure_witness :
    (handle_message (connect emptyManager "s" "u0" "t0") "s" "hi"
      (fun _ => Except.error "boom") 4).2 = [Event.error "boom"] :=
  (c6_first_call_failure (connect emptyManager "s" "u0" "t0") "s"
    (SessionState.mk [] "u0" "t0") "hi" "boom" (fun _ => Except.error "boom") 4
    rfl rfl rfl).1

/-- C7 counterexample: after the single-tool-round scenario the stored
transcript has 2 turns, not 4 — the assistant-with-request turn is absent —
and after a run whose second round-trip fails, no tool-request or tool-result
turn of the completed round remains either: only the user turn is stored. -/
theorem c7_transcript_four_turns_counterexample :
    (sessionMessages scenarioOut.1 "s").length = 2
    ∧ Message.mk "assistant"
        (MsgContent.blocks [Block.toolUse "toolu_1" "fetch_user_data" [("user_id", "abc123")]])
        ∉ sessionMessages scenarioOut.1 "s"
    ∧ sessionMessages
        (handle_message scenarioStart "s" "What is my account status?" failSecondOracle 5).1 "s"
        = [Message.mk "user" (MsgContent.text "What is my account status?")] := by
  decide

/-- C7 amended: in the single-tool-round scenario the client does receive one
tool_use event naming fetch_user_data then one response event with the final
text, but the stored transcript ends with exactly 2 appended turns — the user
message and the final assistant text; the assistant-with-request and
tool-result-carrier turns are never persisted, so nothing of a completed tool
round remains in the stored transcript after a failed later round. -/
theorem c7_scenario_events_and_stored_transcript :
    scenarioOut.2 = [Event.tool_use "fetch_user_data",
                     Event.response "Your account is active."]
    ∧ sessionMessages scenarioOut.1 "s"
        = [Message.mk "user" (MsgContent.text "What is my account status?"),
           Message.mk "assistant" (MsgContent.text "Your account is active.")] := by
  decide

/-- C8 counterexample: a reconnect with an id already in the store resets
that id's transcript — the prior one-turn transcript is not a prefix of the
new empty one, so not every operation merely appends. -/
theorem c8_reconnect_resets_counterexample :
    sessionMessages mgrOneTurn "s" = [mkUserMsg "hi"]
    ∧ sessionMessages (applyOp mgrOneTurn (Op.connect "s" "u1" "t1")) "s" = []
    ∧ ¬ sessionMessages mgrOneTurn "s"
        <+: sessionMessages (applyOp mgrOneTurn (Op.connect "s" "u1" "t1")) "s" := by
  refine ⟨by decide, by decide, ?_⟩
  intro hp
  rw [show sessionMessages mgrOneTurn "s" = [mkUserMsg "hi"] from by decide,
      show sessionMessages (applyOp mgrOneTurn (Op.connect "s" "u1" "t1")) "s" = []
        from by decide] at hp
  obtain ⟨t0, ht⟩ := hp
  simp at ht

/-- C8 amended: every session-store operation other than a connect at the
session's own id leaves that session's stored transcript unchanged or extends
it at the end (the old transcript is a prefix of the new one); a connect at
the same id instead resets the transcript to empty. -/
theorem c8_transcript_append_only (m : SessionManager) (op : Op) (sid : String)
    (h : ∀ uid t, op ≠ Op.connect sid uid t) :
    sessionMessages m sid <+: sessionMessages (applyOp m op) sid := by
  cases op with
  | connect sid2 uid t =>
    have hne : sid ≠ sid2 := fun he => h uid t (by rw [he])
    show sessionMessages m sid <+: sessionMessages (connect m sid2 uid t) sid
    have heq : sessionMessages (connect m sid2 uid t) sid = sessionMessages m sid := by
      simp [connect, sessionMessages, hne]
    rw [heq]
  | disconnect sid2 =>
    show sessionMessages m sid <+: sessionMessages (disconnect m sid2) sid
    exact List.prefix_refl _
  | message sid2 msg oracle fuel =>
    show sessionMessages m sid
      <+: sessionMessages (handle_message m sid2 msg oracle fuel).1 sid
    cases hr : (streamRun oracle
        (sessionMessages m sid2 ++ [Message.mk "user" (MsgContent.text msg)]) fuel).result with
    | finished t =>
      rw [handle_message_state_finished m sid2 msg oracle fuel t hr]
      by_cases hx : sid = sid2
      · subst hx
        cases hst : m.session_states sid with
        | none =>
          rw [update_session_state_unknown m sid _ hst,
              update_session_state_unknown m sid _ hst]
        | some st =>
          rw [sessionMessages_update_self _ sid _ _
            (session_states_update_self m sid st _ hst)]
          exact ⟨[Message.mk "user" (MsgContent.text msg),
                  Message.mk "assistant" (MsgContent.text t)], by simp⟩
      · rw [sessionMessages_update_other _ sid2 sid _ hx,
            sessionMessages_update_other _ sid2 sid _ hx]
    | failed e =>
      rw [handle_message_state_failed m sid2 msg oracle fuel e hr]
      by_cases hx : sid = sid2
      · subst hx
        cases hst : m.session_states sid with
        | none => rw [update_session_state_unknown m sid _ hst]
        | some st =>
          rw [sessionMessages_update_self m sid st _ hst]
          exact ⟨[Message.mk "user" (MsgContent.text msg)], rfl⟩
      · rw [sessionMessages_update_other _ sid2 sid _ hx]
    | outOfFuel =>
      rw [handle_message_state_looping m sid2 msg oracle fuel hr]
      by_cases hx : sid = sid2
      · subst hx
        cases hst : m.session_states sid with
        | none => rw [update_session_state_unknown m sid _ hst]
        | some st =>
          rw [sessionMessages_update_self m sid st _ hst]
          exact ⟨[Message.mk "user" (MsgContent.text msg)], rfl⟩
      · rw [sessionMessages_update_other _ sid2 sid _ hx]

/-- C8 witness: a disconnect leaves the one-turn transcript a prefix of
itself. -/
theorem c8_transcript_append_only_witness :
    sessionMessages mgrOneTurn "s"
      <+: sessionMessages (applyOp mgrOneTurn (Op.disconnect "s")) "s" :=
  c8_transcript_append_only mgrOneTurn (Op.disconnect "s") "s"
    (fun _ _ hc => Op.noConfusion hc)
